import Mathlib

/-!
Verification development for the arcor2 control-plane server
(`src/arcor2/nodes/server.py`).  The Python functions under scrutiny are
shallowly embedded below: module-level dictionaries become association
lists with Python's insertion-order semantics, fallible code returns
`Except`, and uncaught Python exceptions are modelled by `PyErr`.
External collaborators (type loading, robot drivers, storage) enter as
explicit oracle parameters.
-/

namespace Arcor2

/-- Uncaught Python exceptions that can escape the embedded functions. -/
inductive PyErr where
  | keyError
  | nameError
  | assertionError
deriving DecidableEq, Repr

deriving instance DecidableEq for Except

/-- Python `dict` assignment `d[k] = v`: an existing key keeps its position
and gets the new value, a fresh key is appended at the end. -/
def dictInsert {κ α : Type} [DecidableEq κ] (d : List (κ × α)) (k : κ) (v : α) :
    List (κ × α) :=
  match d with
  | [] => [(k, v)]
  | (k0, v0) :: rest =>
      if k0 = k then (k0, v) :: rest else (k0, v0) :: dictInsert rest k v

/-- Python `d.get(k)` / `d[k]` lookup (the caller decides whether a miss is
a `KeyError`). -/
def dictLookup {κ α : Type} [DecidableEq κ] (d : List (κ × α)) (k : κ) : Option α :=
  match d with
  | [] => none
  | (k0, v0) :: rest => if k0 = k then some v0 else dictLookup rest k

/-- Python `k in d`. -/
def dictContains {κ α : Type} [DecidableEq κ] (d : List (κ × α)) (k : κ) : Bool :=
  (dictLookup d k).isSome

/-- A Python dict comprehension: entries inserted left to right, later
occurrences of a key overwrite earlier ones in place. -/
def dictOf {κ α : Type} [DecidableEq κ] (l : List (κ × α)) : List (κ × α) :=
  l.foldl (fun d kv => dictInsert d kv.1 kv.2) []

/-- Python `==` on dicts: equality as finite maps, order-insensitive. -/
def dictEq {κ α : Type} [DecidableEq κ] [DecidableEq α] (a b : List (κ × α)) : Bool :=
  a.all (fun kv => decide (dictLookup b kv.1 = some kv.2)) &&
  b.all (fun kv => decide (dictLookup a kv.1 = some kv.2))

/-- Python `set <= other` on string collections. -/
def listSubset (a b : List String) : Bool :=
  a.all (fun x => decide (x ∈ b))

/-- Python `==` between two collections viewed as sets of strings. -/
def setEqStr (a b : List String) : Bool :=
  listSubset a b && listSubset b a

/-- Poses are carried around but never inspected by the verified code
paths; a pose is modelled as an abstract token. -/
structure Pose where
  val : Nat
deriving DecidableEq, Repr

/-- `arcor2.data.common.ActionParameterTypeEnum` (the members exercised by
`server.py`; remaining members behave like `STRING` there). -/
inductive ActionParameterTypeEnum where
  | STRING
  | DOUBLE
  | INTEGER
  | POSE
  | JOINTS
  | STRING_ENUM
  | INTEGER_ENUM
deriving DecidableEq, Repr

/-- `SceneObject{id, type, pose}` (human-readable name field omitted:
unused by the embedded code). -/
structure SceneObject where
  id : String
  type : String
  pose : Pose
deriving DecidableEq, Repr

/-- `SceneService{type, configuration_id}`. -/
structure SceneService where
  type : String
  configuration_id : String
deriving DecidableEq, Repr

/-- `Scene`: id plus ordered object and service lists (name/description
omitted: unused by the embedded code). -/
structure Scene where
  id : String
  objects : List SceneObject
  services : List SceneService
deriving DecidableEq, Repr

/-- An action parameter `{id, type, value}`.  Modelled from the spec: for
POSE/JOINTS parameters, `parse_id` (not under src/) decodes the value
string into `(ownerObjectId, actionPointId, valueId)`; `none` models an
unparsable value. -/
structure ActionParameter where
  id : String
  type : ActionParameterTypeEnum
  value : Option (String × String × String)
deriving DecidableEq, Repr

/-- An action.  Modelled from the spec: the source stores a type string
encoding `(target_object_or_service_id, action_name)` that `parse_type`
(not under src/) decodes; we model the decoded pair directly. -/
structure Action where
  id : String
  target : String
  name : String
  parameters : List ActionParameter
deriving DecidableEq, Repr

/-- The raw `action.type` string, re-encoded from the modelled pair (the
spec describes the string as encoding the pair). -/
def Action.type_str (a : Action) : String :=
  a.target ++ "/" ++ a.name

/-- `RobotJoints{id, robot_id, joints, is_valid}` (the joint values list is
never inspected by the validator; omitted). -/
structure RobotJoints where
  id : String
  robot_id : String
  is_valid : Bool
deriving DecidableEq, Repr

/-- An action point (position and orientations omitted: unused by the
embedded code paths). -/
structure ActionPoint where
  id : String
  robot_joints : List RobotJoints
  actions : List Action
deriving DecidableEq, Repr

/-- `ProjectObject{id, action_points}`. -/
structure ProjectObject where
  id : String
  action_points : List ActionPoint
deriving DecidableEq, Repr

/-- `Project` (description/sources flags omitted: unused). -/
structure Project where
  id : String
  scene_id : String
  objects : List ProjectObject
deriving DecidableEq, Repr

/-- One declared argument of a catalogue action. -/
structure ObjectActionArg where
  name : String
  type : ActionParameterTypeEnum
deriving DecidableEq, Repr

/-- One catalogue action of an object or service type. -/
structure ObjectAction where
  name : String
  action_args : List ObjectActionArg
deriving DecidableEq, Repr

/-- `ACTIONS`: object/service type name to its action catalogue. -/
abbrev ObjectActionsDict := List (String × List ObjectAction)

/-! ## Validator: `project_problems` (server.py lines 616-698)

The function is embedded statement by statement.  Three latent exception
paths of the source are preserved: `ACTIONS[os_type]` raises `KeyError`
for a type without a catalogue entry, the no-match diagnostic evaluates
`scene_objects[obj_id]` which raises `KeyError` when the target is a
service, and `objects_aps[p_obj_id]` raises `KeyError` for an unknown
parameter owner.  The loop variable `act` of the catalogue scan leaks out
of its `for` statement in Python (function scope); it is threaded through
the embedding as an `Option ObjectAction`, `none` standing for a not yet
bound name (`NameError` on use). -/

/-- Modelled from the spec: message text of the exception raised by an
unparsable POSE/JOINTS parameter value (`parse_id` is not under src/). -/
def parse_id_error_message : String :=
  "Parameter value parsing failed."

/-- The body of the parameter-value validation loop (lines 672-696) for a
single parameter: emitted diagnostics, or the uncaught `KeyError` of
`objects_aps[p_obj_id]`.  When the owner object is unknown the source
appends a missing-object diagnostic and then immediately raises, so the
appended message is unobservable. -/
def check_param (objects_aps : List (String × List String)) (action_id : String)
    (param : ActionParameter) : Except PyErr (List String) :=
  match param.type with
  | .POSE | .JOINTS =>
    match param.value with
    | none => Except.ok [parse_id_error_message]
    | some (p_obj_id, p_ap_id, _val_id) =>
      match dictLookup objects_aps p_obj_id with
      | none => Except.error PyErr.keyError
      | some aps =>
        if p_ap_id ∈ aps then Except.ok []
        else
          let pid := param.id
          Except.ok
            [s!"Parameter {pid} of action {action_id} refers to non-existent action point of object id {p_obj_id}."]
  | _ => Except.ok []

/-- The parameter-value validation loop over all parameters of one action. -/
def check_params (objects_aps : List (String × List String)) (action_id : String) :
    List ActionParameter → Except PyErr (List String)
  | [] => Except.ok []
  | p :: rest => do
    let m ← check_param objects_aps action_id p
    let ms ← check_params objects_aps action_id rest
    Except.ok (m ++ ms)

/-- The body of the action loop (lines 638-696) for one action: emitted
diagnostics plus the new binding of the leaked loop variable `act`. -/
def check_action (actions : ObjectActionsDict) (scene_objects : List (String × String))
    (scene_services : List String) (objects_aps : List (String × List String))
    (action_ids : List String) (obj : ProjectObject) (ap : ActionPoint)
    (act0 : Option ObjectAction) (action : Action) :
    Except PyErr (List String × Option ObjectAction) := do
  let aid := action.id
  let oid := obj.id
  let apid := ap.id
  let dup_msgs :=
    if aid ∈ action_ids then [s!"Action ID {aid} of the {oid}/{apid} is not unique."]
    else []
  let obj_id := action.target
  let action_type := action.name
  if ¬ (dictContains scene_objects obj_id || decide (obj_id ∈ scene_services)) then
    return (dup_msgs ++ [s!"Object ID {oid} which action is used in {aid} does not exist in scene."], act0)
  let os_type :=
    match dictLookup scene_objects obj_id with
    | some t => t
    | none => obj_id
  match dictLookup actions os_type with
  | none => Except.error PyErr.keyError
  | some catalogue =>
    let step1 : Except PyErr (List String × Option ObjectAction) :=
      match catalogue.find? (fun a => a.name == action_type) with
      | some a => Except.ok ([], some a)
      | none =>
        match dictLookup scene_objects obj_id with
        | none => Except.error PyErr.keyError
        | some t =>
          Except.ok ([s!"Object type {t} does not have action {action_type} used in {aid}."],
            match catalogue.getLast? with
            | some last => some last
            | none => act0)
    let (miss_msgs, act1) ← step1
    let action_params := dictOf (action.parameters.map (fun p => (p.id, p.type)))
    let ot_params : List (String × ActionParameterTypeEnum) ←
      match act1 with
      | none => Except.error PyErr.nameError
      | some a =>
        Except.ok (if catalogue.isEmpty then []
                   else dictOf (a.action_args.map (fun g => (g.name, g.type))))
    let atype := action.type_str
    let param_msgs :=
      if dictEq action_params ot_params then []
      else [s!"Action ID {aid} of type {atype} has invalid parameters."]
    let val_msgs ← check_params objects_aps aid action.parameters
    Except.ok (dup_msgs ++ miss_msgs ++ param_msgs ++ val_msgs, act1)

/-- The action loop over all actions of one action point. -/
def check_actions (actions : ObjectActionsDict) (scene_objects : List (String × String))
    (scene_services : List String) (objects_aps : List (String × List String))
    (action_ids : List String) (obj : ProjectObject) (ap : ActionPoint) :
    Option ObjectAction → List Action → Except PyErr (List String × Option ObjectAction)
  | act0, [] => Except.ok ([], act0)
  | act0, a :: rest => do
    let (m, act1) ← check_action actions scene_objects scene_services objects_aps
        action_ids obj ap act0 a
    let (ms, act2) ← check_actions actions scene_objects scene_services objects_aps
        action_ids obj ap act1 rest
    Except.ok (m ++ ms, act2)

/-- The invalid-joints diagnostic (lines 634-636). -/
def invalid_joints_message (apid : String) (j : RobotJoints) : String :=
  let jid := j.id
  let rid := j.robot_id
  s!"Action point {apid} has invalid joints: {jid} (robot {rid})."

/-- The body of the action-point loop (lines 632-696): joints diagnostics
first, then the action loop. -/
def check_ap (actions : ObjectActionsDict) (scene_objects : List (String × String))
    (scene_services : List String) (objects_aps : List (String × List String))
    (action_ids : List String) (obj : ProjectObject) (act0 : Option ObjectAction)
    (ap : ActionPoint) : Except PyErr (List String × Option ObjectAction) := do
  let jm := ap.robot_joints.filterMap
    (fun j => if j.is_valid then none else some (invalid_joints_message ap.id j))
  let (am, act1) ← check_actions actions scene_objects scene_services objects_aps
      action_ids obj ap act0 ap.actions
  Except.ok (jm ++ am, act1)

/-- The action-point loop over all action points of one project object. -/
def check_aps (actions : ObjectActionsDict) (scene_objects : List (String × String))
    (scene_services : List String) (objects_aps : List (String × List String))
    (action_ids : List String) (obj : ProjectObject) :
    Option ObjectAction → List ActionPoint → Except PyErr (List String × Option ObjectAction)
  | act0, [] => Except.ok ([], act0)
  | act0, ap :: rest => do
    let (m, act1) ← check_ap actions scene_objects scene_services objects_aps
        action_ids obj act0 ap
    let (ms, act2) ← check_aps actions scene_objects scene_services objects_aps
        action_ids obj act1 rest
    Except.ok (m ++ ms, act2)

/-- The body of the object loop (lines 625-696) for one project object. -/
def check_obj (actions : ObjectActionsDict) (scene_objects : List (String × String))
    (scene_services : List String) (objects_aps : List (String × List String))
    (action_ids : List String) (act0 : Option ObjectAction) (obj : ProjectObject) :
    Except PyErr (List String × Option ObjectAction) :=
  if dictContains scene_objects obj.id then
    check_aps actions scene_objects scene_services objects_aps action_ids obj act0
      obj.action_points
  else
    let oid := obj.id
    Except.ok ([s!"Object ID {oid} does not exist in scene."], act0)

/-- The object loop over all project objects. -/
def check_objs (actions : ObjectActionsDict) (scene_objects : List (String × String))
    (scene_services : List String) (objects_aps : List (String × List String))
    (action_ids : List String) :
    Option ObjectAction → List ProjectObject → Except PyErr (List String × Option ObjectAction)
  | act0, [] => Except.ok ([], act0)
  | act0, obj :: rest => do
    let (m, act1) ← check_obj actions scene_objects scene_services objects_aps
        action_ids act0 obj
    let (ms, act2) ← check_objs actions scene_objects scene_services objects_aps
        action_ids act1 rest
    Except.ok (m ++ ms, act2)

/-- `project_problems(scene, project)` (lines 616-698), with the module
global `ACTIONS` passed explicitly.  Note that the source initializes the
local set `action_ids` to empty and never inserts into it. -/
def project_problems (actions : ObjectActionsDict) (scene : Scene) (project : Project) :
    Except PyErr (List String) := do
  let scene_objects := dictOf (scene.objects.map (fun o => (o.id, o.type)))
  let scene_services := scene.services.map (fun s => s.type)
  let objects_aps :=
    dictOf (project.objects.map (fun o => (o.id, o.action_points.map (fun ap => ap.id))))
  let action_ids : List String := []
  let (problems, _) ← check_objs actions scene_objects scene_services objects_aps
      action_ids none project.objects
  Except.ok problems

/-! ## Claim-side well-formedness predicates (refinement side, written from
the spec sentences quoted by the claims) -/

/-- The spec's "action targets an existing object/service action and every
parameter matches its catalogue signature" for a single action: the target
id is a scene object id or scene service type, the resulting type has a
catalogue entry containing an action of the referenced name, and the
action's parameter id/type dictionary equals that catalogue action's
argument name/type dictionary. -/
def action_resolves (actions : ObjectActionsDict) (scene_objects : List (String × String))
    (scene_services : List String) (a : Action) : Bool :=
  (dictContains scene_objects a.target || decide (a.target ∈ scene_services)) &&
  (let os_type :=
    match dictLookup scene_objects a.target with
    | some t => t
    | none => a.target
   match dictLookup actions os_type with
   | none => false
   | some catalogue =>
     match catalogue.find? (fun x => x.name == a.name) with
     | none => false
     | some m =>
       dictEq (dictOf (a.parameters.map (fun p => (p.id, p.type))))
              (dictOf (m.action_args.map (fun g => (g.name, g.type)))))

/-- The conditions claim C2 states: every project object's id exists in
the scene and every action resolves with matching parameter signature. -/
def C2_stated_wf (actions : ObjectActionsDict) (scene : Scene) (project : Project) : Bool :=
  let scene_objects := dictOf (scene.objects.map (fun o => (o.id, o.type)))
  let scene_services := scene.services.map (fun s => s.type)
  project.objects.all (fun obj =>
    dictContains scene_objects obj.id &&
    obj.action_points.all (fun ap =>
      ap.actions.all (fun a => action_resolves actions scene_objects scene_services a)))

/-- A POSE/JOINTS parameter value parses and references a known project
object and one of its action point ids. -/
def param_ref_ok (objects_aps : List (String × List String)) (p : ActionParameter) : Bool :=
  match p.type with
  | .POSE | .JOINTS =>
    match p.value with
    | none => false
    | some (po, pa, _v) =>
      match dictLookup objects_aps po with
      | none => false
      | some aps => decide (pa ∈ aps)
  | _ => true

/-- The amended conditions of claim C2: the stated ones plus every
`RobotJoints` entry valid and every POSE/JOINTS parameter reference
resolvable. -/
def C2_amended_wf (actions : ObjectActionsDict) (scene : Scene) (project : Project) : Bool :=
  C2_stated_wf actions scene project &&
  (let objects_aps :=
    dictOf (project.objects.map (fun o => (o.id, o.action_points.map (fun ap => ap.id))))
   project.objects.all (fun obj =>
     obj.action_points.all (fun ap =>
       ap.robot_joints.all (fun j => j.is_valid) &&
       ap.actions.all (fun a => a.parameters.all (fun p => param_ref_ok objects_aps p)))))

/-! ## Claim C1 -/

/-- Catalogue for the C1 input: type Box with a parameterless action. -/
def C1_actions_dict : ObjectActionsDict :=
  [("Box", [⟨"act", []⟩])]

/-- Scene for the C1 input: one object box of type Box. -/
def C1_scene : Scene :=
  ⟨"s", [⟨"box", "Box", ⟨0⟩⟩], []⟩

/-- Project for the C1 input: object box with one action point carrying
two actions that share the id a1 (both otherwise fully valid). -/
def C1_project : Project :=
  ⟨"p", "s",
    [⟨"box", [⟨"ap", [], [⟨"a1", "box", "act", []⟩, ⟨"a1", "box", "act", []⟩]⟩]⟩]⟩

/-- Claim C1: a duplicated action id is claimed to always be reported by
`project_problems`, the set of already-seen ids being accumulated while
iterating.  The source initializes the accumulator `action_ids` (line 622)
but never inserts into it, so the membership test at line 640 is always
false: on a project whose single action point carries two actions with the
same id `a1`, `project_problems` returns no diagnostic at all. -/
theorem C1_duplicate_action_id_not_reported :
    project_problems C1_actions_dict C1_scene C1_project = Except.ok [] := by decide

/-! ## Claim C2 -/

/-- Catalogue for the C2 counterexample. -/
def C2cx_actions_dict : ObjectActionsDict :=
  [("Box", [⟨"act", []⟩])]

/-- Scene for the C2 counterexample. -/
def C2cx_scene : Scene :=
  ⟨"s", [⟨"box", "Box", ⟨0⟩⟩], []⟩

/-- Project for the C2 counterexample: every stated condition of the claim
holds (the object exists in the scene and there are no actions at all),
but an action point carries a `RobotJoints` entry with `is_valid=false`. -/
def C2cx_project : Project :=
  ⟨"p", "s", [⟨"box", [⟨"ap", [⟨"j", "r", false⟩], []⟩]⟩]⟩

/-- Claim C2, counterexample: a (Scene, Project) pair satisfying all the
conditions the claim states on which `project_problems` is nonetheless
nonempty — it reports the invalid joints entry, a condition the claim
omits. -/
theorem C2_counterexample :
    C2_stated_wf C2cx_actions_dict C2cx_scene C2cx_project = true ∧
    project_problems C2cx_actions_dict C2cx_scene C2cx_project ≠ Except.ok [] := by decide

/-- A resolvable POSE/JOINTS reference produces no diagnostic. -/
theorem check_param_ok (objects_aps : List (String × List String)) (aid : String)
    (p : ActionParameter) (h : param_ref_ok objects_aps p = true) :
    check_param objects_aps aid p = Except.ok [] := by
  obtain ⟨pid, ptype, pval⟩ := p
  cases ptype <;> simp only [param_ref_ok] at h <;> simp only [check_param] <;> try rfl
  all_goals
    cases pval with
    | none => simp at h
    | some trip =>
      obtain ⟨po, pa, v⟩ := trip
      cases hl : dictLookup objects_aps po with
      | none => simp [hl] at h
      | some aps =>
        simp only [hl, decide_eq_true_eq] at h
        simp [hl, h]

/-- All parameters resolvable: the parameter loop emits nothing. -/
theorem check_params_ok (objects_aps : List (String × List String)) (aid : String)
    (ps : List ActionParameter) (h : ∀ p ∈ ps, param_ref_ok objects_aps p = true) :
    check_params objects_aps aid ps = Except.ok [] := by
  induction ps with
  | nil => rfl
  | cons p rest ih =>
    have h1 := check_param_ok objects_aps aid p (h p (List.mem_cons_self p rest))
    have h2 := ih (fun q hq => h q (List.mem_cons_of_mem p hq))
    simp [check_params, h1, h2, Bind.bind, Except.bind]

/-- A fully resolving action with resolvable parameter references emits no
diagnostic and leaves the leaked loop variable bound to the catalogue
match. -/
theorem check_action_ok (actions : ObjectActionsDict) (so : List (String × String))
    (ss : List String) (oaps : List (String × List String)) (obj : ProjectObject)
    (ap : ActionPoint) (act0 : Option ObjectAction) (a : Action)
    (h : action_resolves actions so ss a = true)
    (hp : ∀ p ∈ a.parameters, param_ref_ok oaps p = true) :
    ∃ m, check_action actions so ss oaps [] obj ap act0 a = Except.ok ([], some m) := by
  unfold action_resolves at h
  rw [Bool.and_eq_true] at h
  obtain ⟨h1, h2⟩ := h
  simp only at h2
  cases hL : dictLookup actions
      (match dictLookup so a.target with
       | some t => t
       | none => a.target) with
  | none => simp [hL] at h2
  | some catalogue =>
    simp only [hL] at h2
    cases hF : catalogue.find? (fun x => x.name == a.name) with
    | none => simp [hF] at h2
    | some m =>
      simp only [hF] at h2
      refine ⟨m, ?_⟩
      have hform : check_params oaps a.id a.parameters = Except.ok [] :=
        check_params_ok oaps a.id a.parameters hp
      have hne : catalogue.isEmpty = false := by
        cases catalogue with
        | nil => simp [List.find?] at hF
        | cons c cs => rfl
      simp [check_action, h1, hL, hF, hform, hne, h2, Bind.bind, Except.bind,
        Pure.pure, Except.pure]

/-- The action loop of a fully resolving action point emits nothing. -/
theorem check_actions_ok (actions : ObjectActionsDict) (so : List (String × String))
    (ss : List String) (oaps : List (String × List String)) (obj : ProjectObject)
    (ap : ActionPoint) (acts : List Action) (act0 : Option ObjectAction)
    (h : ∀ a ∈ acts, action_resolves actions so ss a = true ∧
      ∀ p ∈ a.parameters, param_ref_ok oaps p = true) :
    ∃ act2, check_actions actions so ss oaps [] obj ap act0 acts =
      Except.ok ([], act2) := by
  induction acts generalizing act0 with
  | nil => exact ⟨act0, rfl⟩
  | cons a rest ih =>
    obtain ⟨ha, hpa⟩ := h a (List.mem_cons_self a rest)
    obtain ⟨m, e1⟩ := check_action_ok actions so ss oaps obj ap act0 a ha hpa
    obtain ⟨act2, e2⟩ := ih (some m) (fun b hb => h b (List.mem_cons_of_mem a hb))
    exact ⟨act2, by simp [check_actions, e1, e2, Bind.bind, Except.bind]⟩

/-- An action point with only valid joints and fully resolving actions
emits nothing. -/
theorem check_ap_ok (actions : ObjectActionsDict) (so : List (String × String))
    (ss : List String) (oaps : List (String × List String)) (obj : ProjectObject)
    (act0 : Option ObjectAction) (ap : ActionPoint)
    (hj : ∀ j ∈ ap.robot_joints, j.is_valid = true)
    (h : ∀ a ∈ ap.actions, action_resolves actions so ss a = true ∧
      ∀ p ∈ a.parameters, param_ref_ok oaps p = true) :
    ∃ act2, check_ap actions so ss oaps [] obj act0 ap = Except.ok ([], act2) := by
  obtain ⟨act2, e⟩ := check_actions_ok actions so ss oaps obj ap ap.actions act0 h
  refine ⟨act2, ?_⟩
  have hjm : ap.robot_joints.filterMap
      (fun j => if j.is_valid then none else some (invalid_joints_message ap.id j)) = [] := by
    rw [List.filterMap_eq_nil_iff]
    intro j hjmem
    simp [hj j hjmem]
  simp [check_ap, hjm, e, Bind.bind, Except.bind]

/-- The action-point loop of a fully valid project object emits nothing. -/
theorem check_aps_ok (actions : ObjectActionsDict) (so : List (String × String))
    (ss : List String) (oaps : List (String × List String)) (obj : ProjectObject)
    (aps : List ActionPoint) (act0 : Option ObjectAction)
    (h : ∀ ap ∈ aps, (∀ j ∈ ap.robot_joints, j.is_valid = true) ∧
      ∀ a ∈ ap.actions, action_resolves actions so ss a = true ∧
        ∀ p ∈ a.parameters, param_ref_ok oaps p = true) :
    ∃ act2, check_aps actions so ss oaps [] obj act0 aps = Except.ok ([], act2) := by
  induction aps generalizing act0 with
  | nil => exact ⟨act0, rfl⟩
  | cons ap rest ih =>
    obtain ⟨hj, ha⟩ := h ap (List.mem_cons_self ap rest)
    obtain ⟨act1, e1⟩ := check_ap_ok actions so ss oaps obj act0 ap hj ha
    obtain ⟨act2, e2⟩ := ih act1 (fun b hb => h b (List.mem_cons_of_mem ap hb))
    exact ⟨act2, by simp [check_aps, e1, e2, Bind.bind, Except.bind]⟩

/-- The object loop over fully valid project objects emits nothing. -/
theorem check_objs_ok (actions : ObjectActionsDict) (so : List (String × String))
    (ss : List String) (oaps : List (String × List String)) (objs : List ProjectObject)
    (act0 : Option ObjectAction)
    (h : ∀ obj ∈ objs, dictContains so obj.id = true ∧
      ∀ ap ∈ obj.action_points, (∀ j ∈ ap.robot_joints, j.is_valid = true) ∧
        ∀ a ∈ ap.actions, action_resolves actions so ss a = true ∧
          ∀ p ∈ a.parameters, param_ref_ok oaps p = true) :
    ∃ act2, check_objs actions so ss oaps [] act0 objs = Except.ok ([], act2) := by
  induction objs generalizing act0 with
  | nil => exact ⟨act0, rfl⟩
  | cons obj rest ih =>
    obtain ⟨hin, haps⟩ := h obj (List.mem_cons_self obj rest)
    obtain ⟨act1, e1⟩ := check_aps_ok actions so ss oaps obj obj.action_points act0 haps
    obtain ⟨act2, e2⟩ := ih act1 (fun b hb => h b (List.mem_cons_of_mem obj hb))
    refine ⟨act2, ?_⟩
    have e1x : check_obj actions so ss oaps [] act0 obj = Except.ok ([], act1) := by
      simp [check_obj, hin, e1]
    simp [check_objs, e1x, e2, Bind.bind, Except.bind]

/-- Claim C2 (amended): for every (Scene, Project) pair in which each
project object's id exists in the scene, every action resolves to a
catalogue action with matching parameter id/type set, every `RobotJoints`
entry is valid, and every POSE/JOINTS parameter value parses and
references an existing project object's action point, `project_problems`
returns the empty list (and raises no exception). -/
theorem C2_wellformed_project_has_no_problems (actions : ObjectActionsDict)
    (scene : Scene) (project : Project)
    (h : C2_amended_wf actions scene project = true) :
    project_problems actions scene project = Except.ok [] := by
  unfold C2_amended_wf at h
  rw [Bool.and_eq_true] at h
  obtain ⟨hs, hx⟩ := h
  unfold C2_stated_wf at hs
  simp only [List.all_eq_true, Bool.and_eq_true] at hs hx
  have hall : ∀ obj ∈ project.objects,
      dictContains (dictOf (scene.objects.map (fun o => (o.id, o.type)))) obj.id = true ∧
      ∀ ap ∈ obj.action_points,
        (∀ j ∈ ap.robot_joints, j.is_valid = true) ∧
        ∀ a ∈ ap.actions,
          action_resolves actions (dictOf (scene.objects.map (fun o => (o.id, o.type))))
            (scene.services.map (fun s => s.type)) a = true ∧
          ∀ p ∈ a.parameters,
            param_ref_ok (dictOf (project.objects.map
              (fun o => (o.id, o.action_points.map (fun ap => ap.id))))) p = true := by
    intro obj hobj
    obtain ⟨hin, hres⟩ := hs obj hobj
    refine ⟨hin, ?_⟩
    intro ap hap
    obtain ⟨hjv, hpr⟩ := hx obj hobj ap hap
    refine ⟨hjv, ?_⟩
    intro a ha
    exact ⟨hres ap hap a ha, hpr a ha⟩
  obtain ⟨act2, e⟩ := check_objs_ok actions
    (dictOf (scene.objects.map (fun o => (o.id, o.type))))
    (scene.services.map (fun s => s.type))
    (dictOf (project.objects.map (fun o => (o.id, o.action_points.map (fun ap => ap.id)))))
    project.objects none hall
  simp [project_problems, e, Bind.bind, Except.bind]

/-- Catalogue for the C2 witness. -/
def C2w_actions_dict : ObjectActionsDict :=
  [("Box", [⟨"pick", [⟨"p", ActionParameterTypeEnum.POSE⟩]⟩])]

/-- Scene for the C2 witness. -/
def C2w_scene : Scene :=
  ⟨"s", [⟨"box", "Box", ⟨0⟩⟩], []⟩

/-- Project for the C2 witness: one fully valid action with a POSE
parameter referencing the object's own action point. -/
def C2w_project : Project :=
  ⟨"p", "s",
    [⟨"box", [⟨"ap", [⟨"j", "r", true⟩],
      [⟨"a1", "box", "pick",
        [⟨"p", ActionParameterTypeEnum.POSE, some ("box", "ap", "o1")⟩]⟩]⟩]⟩]⟩

/-- Witness for claim C2's amended theorem at a concrete valid pair. -/
theorem C2_wellformed_project_has_no_problems_witness :
    C2_amended_wf C2w_actions_dict C2w_scene C2w_project = true ∧
    project_problems C2w_actions_dict C2w_scene C2w_project = Except.ok [] :=
  ⟨by decide,
   C2_wellformed_project_has_no_problems C2w_actions_dict C2w_scene C2w_project (by decide)⟩

/-! ## Manager bridge (server.py lines 136-167 and 449-458) -/

/-- An RPC request to the execution manager; only the correlation id is
inspected by the embedded code. -/
structure ManagerRequest where
  id : Nat
deriving DecidableEq, Repr

/-- An RPC response from the execution manager. -/
structure ManagerResponse where
  id : Nat
deriving DecidableEq, Repr

/-- One pass of the sender loop body (lines 155-164) once a message is
available: `MANAGER_RPC_REQUEST_QUEUE.get()` removes the front element;
a successful send continues the loop, a failed send re-enqueues the
message with `put` (which appends at the back of an `asyncio.Queue`) and
breaks out of the loop so the connection is re-established.  The returned
Bool is whether the loop continues. -/
def sender_iteration (queue : List ManagerRequest) (send_ok : Bool) :
    List ManagerRequest × Bool :=
  match queue with
  | [] => (queue, true)
  | msg :: rest => if send_ok then (rest, true) else (rest ++ [msg], false)

/-- Claim C3, counterexample: with two requests queued and the send of the
first failing, the failed request ends up behind the other queued request,
not in front of it — `asyncio.Queue.put` appends at the back. -/
theorem C3_counterexample :
    sender_iteration [⟨1⟩, ⟨2⟩] false = ([⟨2⟩, ⟨1⟩], false) ∧
    (sender_iteration [⟨1⟩, ⟨2⟩] false).1.head? ≠ some ⟨1⟩ := by decide

/-- Claim C3 (amended): when sending the dequeued request fails, the
request is re-enqueued at the back of the outbound queue (behind any other
queued requests), it is still observed in the outbound queue afterwards,
and the sender loop exits so the connection is re-established. -/
theorem C3_failed_send_requeues_at_back (m : ManagerRequest) (rest : List ManagerRequest) :
    sender_iteration (m :: rest) false = (rest ++ [m], false) ∧
    m ∈ (sender_iteration (m :: rest) false).1 := by
  refine ⟨rfl, ?_⟩
  simp [sender_iteration]

/-- The bridge's correlation state: the keys of `MANAGER_RPC_RESPONSES`
(ids awaiting a response; each maps to a one-slot queue, whose content is
irrelevant to the embedded control flow) and `MANAGER_RPC_REQUEST_QUEUE`. -/
structure ManagerBridgeState where
  responses_pending : List Nat
  request_queue : List ManagerRequest
deriving DecidableEq, Repr

/-- `manager_request(req)` (lines 449-458).  `none` models the failure of
the `assert req.id not in MANAGER_RPC_RESPONSES`.  Otherwise a one-slot
queue is registered under the id, the request is enqueued, the matching
response `resp` (delivered by the receiver under that correlation id) is
awaited, and the slot is deleted before returning. -/
def manager_request (st : ManagerBridgeState) (req : ManagerRequest)
    (resp : ManagerResponse) : Option (ManagerResponse × ManagerBridgeState) :=
  if req.id ∈ st.responses_pending then none
  else
    some (resp,
      { responses_pending := (st.responses_pending ++ [req.id]).erase req.id,
        request_queue := st.request_queue ++ [req] })

/-- Claim C4: `manager_request` fails its assertion exactly when the id is
still pending, and on a completed call the request was enqueued and the id
is deregistered again. -/
theorem C4_correlation_id_invariant (st : ManagerBridgeState) (req : ManagerRequest)
    (resp : ManagerResponse) :
    (req.id ∈ st.responses_pending → manager_request st req resp = none) ∧
    (req.id ∉ st.responses_pending →
      ∃ st2, manager_request st req resp = some (resp, st2) ∧
        req.id ∉ st2.responses_pending ∧ req ∈ st2.request_queue) := by
  constructor
  · intro h
    simp [manager_request, h]
  · intro h
    refine ⟨⟨(st.responses_pending ++ [req.id]).erase req.id, st.request_queue ++ [req]⟩,
      ?_, ?_, ?_⟩
    · simp [manager_request, h]
    · rw [List.erase_append_right _ h]
      simp [List.erase_cons_head, h]
    · simp

/-- Witness for claim C4 at a concrete fresh correlation id. -/
theorem C4_correlation_id_invariant_witness :
    (5 : Nat) ∉ ([] : List Nat) ∧
    (∃ st2, manager_request ⟨[], []⟩ ⟨5⟩ ⟨5⟩ = some (⟨5⟩, st2) ∧
      (5 : Nat) ∉ st2.responses_pending ∧ ⟨5⟩ ∈ st2.request_queue) :=
  ⟨by decide, (C4_correlation_id_invariant ⟨[], []⟩ ⟨5⟩ ⟨5⟩).2 (by decide)⟩

/-! ## Object/service registry (server.py lines 1027-1111, 1212-1240, 346-364)

The module globals `SCENE_OBJECT_INSTANCES` and `SERVICES_INSTANCES` become
a `Registry`.  A live object instance is represented by its class name
(the only attribute the embedded code paths read); a live service instance
by whether it is a `RobotService`.  Externally loaded code (type
definitions, constructors, identifier validation) enters through oracle
fields of `ServerEnv`. -/

/-- The geometry model of an object type; only mesh-ness and the mesh's
focus points are read by the embedded code. -/
structure ObjectModel where
  is_mesh : Bool
  focus_points : List Pose
deriving DecidableEq, Repr

/-- `ObjectTypeMeta` (the fields read by the embedded code paths). -/
structure ObjectTypeMeta where
  needs_services : List String
  abstract : Bool
  object_model : Option ObjectModel
deriving DecidableEq, Repr

/-- Live instances: object id to class name, service type to whether the
instance is a `RobotService`. -/
structure Registry where
  scene_object_instances : List (String × String)
  services_instances : List (String × Bool)
deriving DecidableEq, Repr

/-- The environment of module globals and external collaborators.
`ctor_service_params` is modelled from the spec: the leading Service-typed
constructor parameters (`get_type_hints`) of each object type — the loaded
class definitions are not under src/.  `valid_identifier` models
`hlp.is_valid_identifier` (not under src/).  The `..._ok` oracles model
success of externally loaded code: `type_load_ok` covers
`storage.get_object_type`/`type_def_from_source`, `object_construct_ok`
and `service_construct_ok` cover the constructor calls (the source's
separate `TypeError` branch text `System error (...)` is folded into the
generic `System error` of the surrounding handler; no claim reads it). -/
structure ServerEnv where
  object_types : List (String × ObjectTypeMeta)
  service_types : List String
  ctor_service_params : String → List String
  robot_service_type : String → Bool
  valid_identifier : String → Bool
  type_load_ok : String → Bool
  object_construct_ok : String → Bool
  service_construct_ok : String → Bool

/-- `find_robot_service()` (lines 1203-1209): the first registered service
instance that is a `RobotService`, if any. -/
def find_robot_service (reg : Registry) : Option String :=
  (reg.services_instances.find? (fun kv => kv.2)).map (fun kv => kv.1)

/-- `add_service_to_scene(srv)` (lines 1212-1240).  The retroactive
collision-model sync for a newly added robot service touches no embedded
state. -/
def add_service_to_scene (env : ServerEnv) (reg : Registry) (srv : SceneService) :
    (Bool × String) × Registry :=
  if ¬ (srv.type ∈ env.service_types) then ((false, "Unknown service type."), reg)
  else if dictContains reg.services_instances srv.type then
    ((false, "Service already in scene."), reg)
  else if env.robot_service_type srv.type && (find_robot_service reg).isSome then
    ((false, "Scene might contain only one robot service."), reg)
  else if env.service_construct_ok srv.type then
    ((true, "ok"),
      { reg with services_instances :=
          dictInsert reg.services_instances srv.type (env.robot_service_type srv.type) })
  else ((false, "System error"), reg)

/-- The tail of `add_object_to_scene` from the abstract-type check on
(lines 1054-1111): remaining validations, instance construction and
registration.  `collision(obj_inst, add=True)` catches its own errors and
touches no embedded state. -/
def add_object_rest (env : ServerEnv) (reg : Registry) (scene : Scene)
    (obj : SceneObject) (obj_meta : ObjectTypeMeta) (add_to_scene : Bool) :
    (Bool × String) × Registry × Scene :=
  if obj_meta.abstract then ((false, "Cannot instantiate abstract type."), reg, scene)
  else if dictContains reg.scene_object_instances obj.id ||
      dictContains reg.services_instances obj.id then
    ((false, "Object/service with that id already exists."), reg, scene)
  else if ¬ env.valid_identifier obj.id then
    ((false, "Object ID invalid (should be snake_case)."), reg, scene)
  else if ¬ env.type_load_ok obj.type then ((false, "System error"), reg, scene)
  else
    let register : (Bool × String) × Registry × Scene :=
      (((true, "ok")),
        { reg with scene_object_instances :=
            dictInsert reg.scene_object_instances obj.id obj.type },
        if add_to_scene then { scene with objects := scene.objects ++ [obj] } else scene)
    if obj_meta.needs_services.isEmpty then
      if env.object_construct_ok obj.id then register
      else ((false, "System error"), reg, scene)
    else
      match (env.ctor_service_params obj.type).find?
          (fun p => !(dictContains reg.services_instances p)) with
      | some p =>
        let t := obj.type
        ((false, s!"Object type {t} has invalid typ annotation in the constructor, service {p} not available."),
          reg, scene)
      | none =>
        if env.object_construct_ok obj.id then register
        else ((false, "System error"), reg, scene)

/-- `add_object_to_scene(obj, add_to_scene, srv_obj_ok)` (lines
1027-1111). -/
def add_object_to_scene (env : ServerEnv) (reg : Registry) (scene : Scene)
    (obj : SceneObject) (add_to_scene : Bool) (srv_obj_ok : Bool) :
    (Bool × String) × Registry × Scene :=
  match dictLookup env.object_types obj.type with
  | none => ((false, "Unknown object type."), reg, scene)
  | some obj_meta =>
    if srv_obj_ok then
      if ¬ listSubset obj_meta.needs_services env.service_types then
        ((false, "Some of required services is not available."), reg, scene)
      else if ¬ listSubset obj_meta.needs_services
          (reg.services_instances.map (fun kv => kv.1)) then
        ((false, "Some of required services is not in the scene."), reg, scene)
      else add_object_rest env reg scene obj obj_meta add_to_scene
    else
      if ¬ obj_meta.needs_services.isEmpty then
        ((false, "Service(s)-based object."), reg, scene)
      else add_object_rest env reg scene obj obj_meta add_to_scene

/-- The registry produced by the two loops of `open_scene` (lines
351-359): services added first, then objects with `add_to_scene=False`
and `srv_obj_ok=True`; failures are only logged. -/
def open_scene_registry (env : ServerEnv) (reg0 : Registry) (scene : Scene) : Registry :=
  let reg1 := scene.services.foldl (fun r srv => (add_service_to_scene env r srv).2) reg0
  scene.objects.foldl (fun r obj => (add_object_to_scene env r scene obj false true).2.1) reg1

/-- `open_scene(scene_id)` (lines 346-364) after the scene was fetched:
runs the add loops and then the two set-equality assertions of lines
361-362; an assertion failure is the raised `AssertionError`. -/
def open_scene (env : ServerEnv) (reg0 : Registry) (scene : Scene) :
    Except PyErr Registry :=
  if setEqStr (scene.services.map (fun s => s.type))
        ((open_scene_registry env reg0 scene).services_instances.map (fun kv => kv.1)) &&
      setEqStr (scene.objects.map (fun o => o.id))
        ((open_scene_registry env reg0 scene).scene_object_instances.map (fun kv => kv.1)) then
    Except.ok (open_scene_registry env reg0 scene)
  else Except.error PyErr.assertionError

/-- A true `setEqStr` is membership equality. -/
theorem setEqStr_mem (a b : List String) (h : setEqStr a b = true) :
    ∀ x, x ∈ a ↔ x ∈ b := by
  unfold setEqStr listSubset at h
  rw [Bool.and_eq_true] at h
  obtain ⟨h1, h2⟩ := h
  rw [List.all_eq_true] at h1 h2
  intro x
  constructor
  · intro hx
    exact of_decide_eq_true (h1 x hx)
  · intro hx
    exact of_decide_eq_true (h2 x hx)

/-- Claim C5: after `open_scene` completes without error the registered
object ids are exactly the scene's object ids and the registered service
types exactly the scene's service types (the set equalities the function
itself asserts before returning). -/
theorem C5_open_scene_registry_matches_scene (env : ServerEnv) (reg0 : Registry)
    (scene : Scene) (reg : Registry) (h : open_scene env reg0 scene = Except.ok reg) :
    (∀ t, t ∈ reg.services_instances.map (fun kv => kv.1) ↔
      t ∈ scene.services.map (fun s => s.type)) ∧
    (∀ i, i ∈ reg.scene_object_instances.map (fun kv => kv.1) ↔
      i ∈ scene.objects.map (fun o => o.id)) := by
  unfold open_scene at h
  split at h
  case isTrue hc =>
    rw [Bool.and_eq_true] at hc
    obtain ⟨hsrv, hobj⟩ := hc
    obtain rfl : open_scene_registry env reg0 scene = reg := by
      injection h
    constructor
    · intro t
      exact (setEqStr_mem _ _ hsrv t).symm
    · intro i
      exact (setEqStr_mem _ _ hobj i).symm
  case isFalse hc => exact absurd h (by simp)

/-- Concrete environment for the C5 witness. -/
def C5w_env : ServerEnv :=
  ⟨[("Box", ⟨[], false, none⟩)], ["RobotService"],
    fun _ => [], fun t => t == "RobotService", fun _ => true,
    fun _ => true, fun _ => true, fun _ => true⟩

/-- Concrete scene for the C5 witness. -/
def C5w_scene : Scene :=
  ⟨"s", [⟨"box", "Box", ⟨0⟩⟩], [⟨"RobotService", "cfg"⟩]⟩

/-- Witness for claim C5 at a concrete successful scene open. -/
theorem C5_open_scene_registry_matches_scene_witness :
    "box" ∈ (Registry.mk [("box", "Box")] [("RobotService", true)]).scene_object_instances.map
        (fun kv => kv.1) ↔
      "box" ∈ C5w_scene.objects.map (fun o => o.id) :=
  (C5_open_scene_registry_matches_scene C5w_env ⟨[], []⟩ C5w_scene
    ⟨[("box", "Box")], [("RobotService", true)]⟩ (by decide)).2 "box"

/-- Claim C6: for every object descriptor whose type's metadata declares
needed services that are not satisfied in the current scene,
`add_object_to_scene` fails and leaves the registry and the scene exactly
as they were.  In the scene re-open mode (`srv_obj_ok=True`, where scene
satisfaction is actually checked) the failure message is one of the
service-unavailable messages; in the default client-facing mode a
service-requiring object is rejected even earlier with
"Service(s)-based object.". -/
theorem C6_add_object_missing_service_rejected (env : ServerEnv) (reg : Registry)
    (scene : Scene) (obj : SceneObject) (ats : Bool) (meta : ObjectTypeMeta)
    (hm : dictLookup env.object_types obj.type = some meta)
    (hns : meta.needs_services ≠ [])
    (hun : listSubset meta.needs_services env.service_types = false ∨
      listSubset meta.needs_services (reg.services_instances.map (fun kv => kv.1)) = false) :
    ((add_object_to_scene env reg scene obj ats true).1.1 = false ∧
      ((add_object_to_scene env reg scene obj ats true).1.2 =
          "Some of required services is not available." ∨
        (add_object_to_scene env reg scene obj ats true).1.2 =
          "Some of required services is not in the scene.") ∧
      (add_object_to_scene env reg scene obj ats true).2.1 = reg ∧
      (add_object_to_scene env reg scene obj ats true).2.2 = scene) ∧
    add_object_to_scene env reg scene obj ats false =
      ((false, "Service(s)-based object."), reg, scene) := by
  constructor
  · cases hA : listSubset meta.needs_services env.service_types with
    | false => simp [add_object_to_scene, hm, hA]
    | true =>
      have hB : listSubset meta.needs_services
          (reg.services_instances.map (fun kv => kv.1)) = false := by
        cases hun with
        | inl hx => rw [hA] at hx; exact absurd hx (by simp)
        | inr hx => exact hx
      simp [add_object_to_scene, hm, hA, hB]
  · have hne : meta.needs_services.isEmpty = false := by
      cases hE : meta.needs_services with
      | nil => exact absurd hE hns
      | cons x xs => rfl
    simp [add_object_to_scene, hm, hne]

/-- Concrete environment for the C6 witness: type Gripper needs service
svc, which is neither known nor instantiated. -/
def C6w_env : ServerEnv :=
  ⟨[("Gripper", ⟨["svc"], false, none⟩)], [],
    fun _ => ["svc"], fun _ => false, fun _ => true,
    fun _ => true, fun _ => true, fun _ => true⟩

/-- Concrete registry for the C6 witness. -/
def C6w_reg : Registry :=
  ⟨[("box", "Box")], []⟩

/-- Concrete scene for the C6 witness. -/
def C6w_scene : Scene :=
  ⟨"s", [⟨"box", "Box", ⟨0⟩⟩], []⟩

/-- Witness for claim C6 at a concrete unsatisfiable descriptor. -/
theorem C6_add_object_missing_service_rejected_witness :
    ((add_object_to_scene C6w_env C6w_reg C6w_scene ⟨"g1", "Gripper", ⟨0⟩⟩ true true).1.1 = false ∧
      ((add_object_to_scene C6w_env C6w_reg C6w_scene ⟨"g1", "Gripper", ⟨0⟩⟩ true true).1.2 =
          "Some of required services is not available." ∨
        (add_object_to_scene C6w_env C6w_reg C6w_scene ⟨"g1", "Gripper", ⟨0⟩⟩ true true).1.2 =
          "Some of required services is not in the scene.") ∧
      (add_object_to_scene C6w_env C6w_reg C6w_scene ⟨"g1", "Gripper", ⟨0⟩⟩ true true).2.1 = C6w_reg ∧
      (add_object_to_scene C6w_env C6w_reg C6w_scene ⟨"g1", "Gripper", ⟨0⟩⟩ true true).2.2 = C6w_scene) ∧
    add_object_to_scene C6w_env C6w_reg C6w_scene ⟨"g1", "Gripper", ⟨0⟩⟩ true false =
      ((false, "Service(s)-based object."), C6w_reg, C6w_scene) :=
  C6_add_object_missing_service_rejected C6w_env C6w_reg C6w_scene ⟨"g1", "Gripper", ⟨0⟩⟩
    true ⟨["svc"], false, none⟩ (by decide) (by decide) (Or.inl (by decide))

/-! ## Focus calibration (server.py lines 839-869)

`FOCUS_OBJECT` (object id to insertion-ordered point-index/pose map) and
`FOCUS_OBJECT_ROBOT` (object id to robot argument) become a `FocusState`.
The end-effector query `get_end_effector_pose` is modelled as a total
oracle: its own failure modes are orthogonal to the claims below, which
are decided before or independently of the query's outcome value. -/

/-- `rpc.RobotArg`. -/
structure RobotArg where
  robot_id : String
  end_effector : String
deriving DecidableEq, Repr

/-- The two focus-session module globals. -/
structure FocusState where
  focus_object : List (String × List (Int × Pose))
  focus_object_robot : List (String × RobotArg)
deriving DecidableEq, Repr

/-- Outcome of `focus_object_cb`: a success response carrying
`finished_indexes`, or a `(False, message)` failure. -/
inductive FocusResult where
  | success (finished_indexes : List Int)
  | failure (msg : String)
deriving DecidableEq, Repr

/-- `focus_object_cb(req)` (lines 839-869), including its `no_project`
guard.  The `assert` statements on the object model map to
`PyErr.assertionError`; the lookups `OBJECT_TYPES[...]` and
`FOCUS_OBJECT_ROBOT[obj_id]` map to `PyErr.keyError` on a missing key —
the latter is reachable: the implicit-start branch at lines 859-861
creates the point map but no robot entry, and the capture request carries
no robot argument that could create one. -/
def focus_object_cb (env : ServerEnv) (reg : Registry) (project_open : Bool)
    (ee_pose : String → String → Pose) (st : FocusState)
    (obj_id : String) (pt_idx : Int) : Except PyErr (FocusResult × FocusState) :=
  if project_open then
    Except.ok (FocusResult.failure "Not available during project editing.", st)
  else if ¬ dictContains reg.scene_object_instances obj_id then
    Except.ok (FocusResult.failure "Unknown object_id.", st)
  else
    match dictLookup reg.scene_object_instances obj_id with
    | none => Except.error PyErr.keyError
    | some type_name =>
      match dictLookup env.object_types type_name with
      | none => Except.error PyErr.keyError
      | some obj_type =>
        match obj_type.object_model with
        | none => Except.error PyErr.assertionError
        | some model =>
          if ¬ model.is_mesh then Except.error PyErr.assertionError
          else if model.focus_points.isEmpty then Except.error PyErr.assertionError
          else if pt_idx < 0 || pt_idx > (model.focus_points.length : Int) - 1 then
            Except.ok (FocusResult.failure "Index out of range.", st)
          else
            let fo1 :=
              if dictContains st.focus_object obj_id then st.focus_object
              else dictInsert st.focus_object obj_id []
            match dictLookup st.focus_object_robot obj_id with
            | none => Except.error PyErr.keyError
            | some robot =>
              let pose := ee_pose robot.robot_id robot.end_effector
              let captured := (dictLookup fo1 obj_id).getD []
              let captured2 := dictInsert captured pt_idx pose
              Except.ok (FocusResult.success (captured2.map (fun kv => kv.1)),
                { st with focus_object := dictInsert fo1 obj_id captured2 })

/-- Environment for the focus claims: one known type Box with a mesh model
carrying three focus points. -/
def C7_env : ServerEnv :=
  ⟨[("Box", ⟨[], false, some ⟨true, [⟨0⟩, ⟨1⟩, ⟨2⟩]⟩⟩)], [],
    fun _ => [], fun _ => false, fun _ => true,
    fun _ => true, fun _ => true, fun _ => true⟩

/-- Registry for the focus claims: one live object box of class Box. -/
def C7_reg : Registry :=
  ⟨[("box", "Box")], []⟩

/-- Claim C7: capture on a known object with no focus session and an
in-range point index is claimed to implicitly start a session and return
success.  The code logs the implicit start and creates the point map, but
then evaluates `FOCUS_OBJECT_ROBOT[obj_id]` (line 863), which was never
populated (the capture request carries no robot), so the handler raises
`KeyError` instead of returning a response. -/
theorem C7_capture_without_session_raises :
    focus_object_cb C7_env C7_reg false (fun _ _ => ⟨7⟩) ⟨[], []⟩ "box" 0 =
      Except.error PyErr.keyError := by decide

/-- Robot argument for the C8 runs. -/
def C8_robot : RobotArg :=
  ⟨"rob", "ee"⟩

/-- A started (empty) focus session for box. -/
def C8_st1 : FocusState :=
  ⟨[("box", [])], [("box", C8_robot)]⟩

/-- The session after capturing point 2 first. -/
def C8_st2 : FocusState :=
  ⟨[("box", [(2, ⟨7⟩)])], [("box", C8_robot)]⟩

/-- Claim C8, counterexample: capturing point 2 and then point 0 returns
`finished_indexes = [2, 0]` — dict-insertion order, not ascending order
(the source returns `list(FOCUS_OBJECT[obj_id].keys())` unsorted). -/
theorem C8_counterexample :
    focus_object_cb C7_env C7_reg false (fun _ _ => ⟨7⟩) C8_st1 "box" 2 =
      Except.ok (FocusResult.success [2], C8_st2) ∧
    focus_object_cb C7_env C7_reg false (fun _ _ => ⟨7⟩) C8_st2 "box" 0 =
      Except.ok (FocusResult.success [2, 0],
        ⟨[("box", [(2, ⟨7⟩), (0, ⟨7⟩)])], [("box", C8_robot)]⟩) ∧
    ¬ ([2, 0] : List Int).Pairwise (fun a b => a ≤ b) := by decide

/-- Keys of a Python dict after an assignment: the old keys in order, with
the assigned key appended when fresh. -/
theorem dictInsert_keys_mem {κ α : Type} [DecidableEq κ] (d : List (κ × α)) (k : κ)
    (v : α) : ∀ x, x ∈ (dictInsert d k v).map (fun kv => kv.1) ↔
      (x ∈ d.map (fun kv => kv.1) ∨ x = k) := by
  intro x
  induction d with
  | nil => simp [dictInsert]
  | cons kv rest ih =>
    obtain ⟨k0, v0⟩ := kv
    by_cases hk : k0 = k
    · subst hk
      simp [dictInsert]
      tauto
    · have hd : dictInsert ((k0, v0) :: rest) k v = (k0, v0) :: dictInsert rest k v := by
        simp [dictInsert, hk]
      rw [hd, List.map_cons, List.mem_cons, ih, List.map_cons, List.mem_cons]
      tauto

/-- Claim C8 (amended): a successful capture returns the captured indices
in first-capture (insertion) order — the freshly captured index keeps its
old position or is appended at the end — and as a set the returned list is
exactly the previously captured indices plus the captured one. -/
theorem C8_finished_indexes_insertion_order (env : ServerEnv) (reg : Registry)
    (ee_pose : String → String → Pose) (st : FocusState) (obj_id : String)
    (pt_idx : Int) (type_name : String) (obj_type : ObjectTypeMeta) (model : ObjectModel)
    (captured : List (Int × Pose)) (robot : RobotArg)
    (hobj : dictLookup reg.scene_object_instances obj_id = some type_name)
    (hty : dictLookup env.object_types type_name = some obj_type)
    (hmodel : obj_type.object_model = some model)
    (hmesh : model.is_mesh = true)
    (hfp : model.focus_points.isEmpty = false)
    (hlow : ¬ pt_idx < 0)
    (hhigh : ¬ pt_idx > (model.focus_points.length : Int) - 1)
    (hsess : dictLookup st.focus_object obj_id = some captured)
    (hrobot : dictLookup st.focus_object_robot obj_id = some robot) :
    focus_object_cb env reg false ee_pose st obj_id pt_idx =
      Except.ok (FocusResult.success
          ((dictInsert captured pt_idx (ee_pose robot.robot_id robot.end_effector)).map
            (fun kv => kv.1)),
        ⟨dictInsert st.focus_object obj_id
            (dictInsert captured pt_idx (ee_pose robot.robot_id robot.end_effector)),
          st.focus_object_robot⟩) ∧
    ∀ i, i ∈ (dictInsert captured pt_idx
        (ee_pose robot.robot_id robot.end_effector)).map (fun kv => kv.1) ↔
      (i ∈ captured.map (fun kv => kv.1) ∨ i = pt_idx) := by
  constructor
  · have hcont : dictContains reg.scene_object_instances obj_id = true := by
      simp [dictContains, hobj]
    have hsc : dictContains st.focus_object obj_id = true := by
      simp [dictContains, hsess]
    simp [focus_object_cb, hcont, hobj, hty, hmodel, hmesh, hfp, hlow, hhigh, hsc,
      hsess, hrobot]
  · exact dictInsert_keys_mem captured pt_idx (ee_pose robot.robot_id robot.end_effector)

/-- Witness for claim C8's amended theorem: a fresh capture of point 1 on
a started session. -/
theorem C8_finished_indexes_insertion_order_witness :
    (focus_object_cb C7_env C7_reg false (fun _ _ => ⟨9⟩) ⟨[("box", [])], [("box", ⟨"r2", "e2"⟩)]⟩
        "box" 1 =
      Except.ok (FocusResult.success [1],
        ⟨[("box", [(1, ⟨9⟩)])], [("box", ⟨"r2", "e2"⟩)]⟩)) ∧
    ∀ i, i ∈ ([(1, (⟨9⟩ : Pose))] : List (Int × Pose)).map (fun kv => kv.1) ↔
      (i ∈ ([] : List (Int × Pose)).map (fun kv => kv.1) ∨ i = 1) :=
  C8_finished_indexes_insertion_order C7_env C7_reg (fun _ _ => ⟨9⟩)
    ⟨[("box", [])], [("box", ⟨"r2", "e2"⟩)]⟩ "box" 1 "Box"
    ⟨[], false, some ⟨true, [⟨0⟩, ⟨1⟩, ⟨2⟩]⟩⟩ ⟨true, [⟨0⟩, ⟨1⟩, ⟨2⟩]⟩ [] ⟨"r2", "e2"⟩
    (by decide) (by decide) (by decide) (by decide) (by decide) (by decide) (by decide)
    (by decide) (by decide)

/-! ## Connection hub: `notify` (server.py lines 180-184)

Channels are abstracted to naturals; `INTERFACES` is a set, modelled as a
duplicate-free list.  `notify` computes the set of channels it sends to;
the per-channel sends are awaited together with `asyncio.wait`, which does
not cancel the remaining sends when one fails, so the recipient set is
independent of individual send outcomes. -/

/-- The channels `notify(event, exclude_ui)` sends the serialized event
to: nothing unless (no exclusion and some channel registered) or (an
exclusion given and more than one channel registered); otherwise every
registered channel other than the excluded one. -/
def notify_recipients (interfaces : List Nat) (exclude_ui : Option Nat) : List Nat :=
  if (exclude_ui.isNone && !interfaces.isEmpty) ||
      (exclude_ui.isSome && decide (1 < interfaces.length)) then
    interfaces.filter (fun i => decide (some i ≠ exclude_ui))
  else []

/-- Claim C9, counterexample: channel 5 is registered and differs from the
excluded channel 7 (which is not registered), yet nothing is sent — with
an exclusion given, line 182 requires more than one registered channel. -/
theorem C9_counterexample :
    (5 : Nat) ∈ [5] ∧ some (5 : Nat) ≠ some (7 : Nat) ∧
    notify_recipients [5] (some 7) = [] := by decide

/-- Claim C9 (amended): a channel receives the event exactly when it is
registered, differs from the excluded channel, and either no exclusion
was given and some channel is registered, or an exclusion was given and
more than one channel is registered. -/
theorem C9_notify_recipients_membership (interfaces : List Nat) (exclude_ui : Option Nat)
    (i : Nat) :
    i ∈ notify_recipients interfaces exclude_ui ↔
      (i ∈ interfaces ∧ some i ≠ exclude_ui ∧
        ((exclude_ui = none ∧ interfaces ≠ []) ∨
          (exclude_ui.isSome = true ∧ 1 < interfaces.length))) := by
  unfold notify_recipients
  split
  case isTrue hc =>
    rw [Bool.or_eq_true, Bool.and_eq_true, Bool.and_eq_true] at hc
    simp only [List.mem_filter, decide_eq_true_eq]
    constructor
    · rintro ⟨hmem, hne⟩
      refine ⟨hmem, hne, ?_⟩
      cases hc with
      | inl hx =>
        refine Or.inl ⟨Option.isNone_iff_eq_none.mp hx.1, ?_⟩
        intro hnil
        rw [hnil] at hx
        simp at hx
      | inr hx =>
        exact Or.inr ⟨hx.1, by simpa using hx.2⟩
    · rintro ⟨hmem, hne, _⟩
      exact ⟨hmem, hne⟩
  case isFalse hc =>
    rw [Bool.or_eq_true, Bool.and_eq_true, Bool.and_eq_true] at hc
    push_neg at hc
    simp only [List.not_mem_nil, false_iff]
    rintro ⟨hmem, hne, hcase⟩
    cases hcase with
    | inl hx =>
      obtain ⟨hnone, hnil⟩ := hx
      have h1 : exclude_ui.isNone = true := by simp [hnone]
      have h2 : (!interfaces.isEmpty) = true := by
        cases interfaces with
        | nil => exact absurd rfl hnil
        | cons a l => rfl
      exact hc.1 h1 h2
    | inr hx =>
      exact hc.2 hx.1 (decide_eq_true hx.2)

/-! ## `update_action_object_cb` (server.py lines 592-613) -/

/-- Modelled from the spec: `scene_utils.get_scene_object` (not under
src/) returns the scene object with the given id, raising
`SceneObjectNotFound` (here `none`) when absent. -/
def get_scene_object_by_id (scene : Scene) (oid : String) : Option SceneObject :=
  scene.objects.find? (fun o => o.id == oid)

/-- In-place pose assignment on the first scene object with the given id
(ids are unique in a scene). -/
def update_scene_object_pose (objects : List SceneObject) (oid : String) (p : Pose) :
    List SceneObject :=
  match objects with
  | [] => []
  | o :: rest =>
    if o.id = oid then ⟨o.id, o.type, p⟩ :: rest
    else o :: update_scene_object_pose rest oid p

/-- `update_action_object_cb(req)` with its `scene_needed`/`no_project`
guards.  `ee_pose` models `get_end_effector_pose`; a `RobotPoseException`
(its message) is the only caught failure (line 609); its other exception
kinds propagate but are not exercised here.  A `none` result models the
handler's `return None` success. -/
def update_action_object_cb (scene : Option Scene) (project_open : Bool)
    (args_id : String) (args_robot : RobotArg) (ee_pose : Except String Pose) :
    Option (Bool × String) × Option Scene :=
  match scene with
  | none => (some (false, "Scene not opened or has invalid id."), scene)
  | some sc =>
    if sc.id = "" then (some (false, "Scene not opened or has invalid id."), scene)
    else if project_open then (some (false, "Not available during project editing."), scene)
    else if args_id = args_robot.robot_id then
      (some (false, "Robot cannot update its own pose."), scene)
    else
      match get_scene_object_by_id sc args_id with
      | none => (some (false, "Invalid action object."), scene)
      | some _ =>
        match ee_pose with
        | Except.error e => (some (false, e), scene)
        | Except.ok p =>
          (none, some ⟨sc.id, update_scene_object_pose sc.objects args_id p, sc.services⟩)

/-- Claim C10: when the target object id equals the measuring robot's id,
the handler fails with "Robot cannot update its own pose." and the scene
is unchanged, for every outcome of the robot query — the check precedes
the query, so no robot is consulted. -/
theorem C10_robot_cannot_update_own_pose (sc : Scene) (args_id : String)
    (args_robot : RobotArg) (hid : ¬ sc.id = "") (h : args_id = args_robot.robot_id) :
    ∀ ee_pose, update_action_object_cb (some sc) false args_id args_robot ee_pose =
      (some (false, "Robot cannot update its own pose."), some sc) := by
  intro ee_pose
  simp [update_action_object_cb, hid, h]

/-- Witness for claim C10 at a concrete request. -/
theorem C10_robot_cannot_update_own_pose_witness :
    update_action_object_cb (some ⟨"s", [⟨"rob", "Robot", ⟨0⟩⟩], []⟩) false "rob"
        ⟨"rob", "ee"⟩ (Except.ok ⟨9⟩) =
      (some (false, "Robot cannot update its own pose."),
        some ⟨"s", [⟨"rob", "Robot", ⟨0⟩⟩], []⟩) :=
  C10_robot_cannot_update_own_pose ⟨"s", [⟨"rob", "Robot", ⟨0⟩⟩], []⟩ "rob" ⟨"rob", "ee"⟩
    (by decide) rfl (Except.ok ⟨9⟩)

end Arcor2
